import Mathlib

/-!
Shallow embedding of `lalrpop-util/src/lib.rs`: the `ParseError` sum type,
its three projection maps (`map_location`, `map_token`, `map_error`, all
implemented through `map_intern`), the `Display` rendering (`fmt_expected`
and the per-variant formatting), the `Error::description` method, and the
`ErrorRecovery` record.  Strings are modelled as Lean `String`; the generic
parameters `L`, `T`, `E` are Lean type parameters; `Display` of the payload
types is modelled by explicit rendering functions `dL : L → String`,
`dT : T → String`, `dE : E → String`.
-/

namespace LalrpopUtil

/-- The `ParseError<L, T, E>` enum from `lalrpop-util/src/lib.rs`.
Variant payloads follow the Rust declaration: `InvalidToken { location }`,
`UnrecognizedEOF { location, expected }`, `UnrecognizedToken { token, expected }`
with `token : (L, T, L)`, `ExtraToken { token }`, `User { error }`. -/
inductive ParseError (L T E : Type) where
  | InvalidToken (location : L)
  | UnrecognizedEOF (location : L) (expected : List String)
  | UnrecognizedToken (token : L × T × L) (expected : List String)
  | ExtraToken (token : L × T × L)
  | User (error : E)
deriving DecidableEq

/-- The `ErrorRecovery<L, T, E>` struct: an error together with the tokens
dropped while recovering. -/
structure ErrorRecovery (L T E : Type) where
  error : ParseError L T E
  dropped_tokens : List (L × T × L)
deriving DecidableEq

namespace ParseError

variable {L T E LL TT EE : Type}

/-- Rust `ParseError::map_intern`: applies `loc_op` to every location (via the
`maptok` closure for spans), `tok_op` to the token, `err_op` to the user
error, and carries `expected` through unchanged. -/
def map_intern (loc_op : L → LL) (tok_op : T → TT) (err_op : E → EE) :
    ParseError L T E → ParseError LL TT EE :=
  let maptok : L × T × L → LL × TT × LL :=
    fun (s, t, e) => (loc_op s, tok_op t, loc_op e)
  fun p =>
    match p with
    | .InvalidToken location => .InvalidToken (loc_op location)
    | .UnrecognizedEOF location expected => .UnrecognizedEOF (loc_op location) expected
    | .UnrecognizedToken token expected => .UnrecognizedToken (maptok token) expected
    | .ExtraToken token => .ExtraToken (maptok token)
    | .User error => .User (err_op error)

/-- Rust `ParseError::map_location`. -/
def map_location (op : L → LL) (p : ParseError L T E) : ParseError LL T E :=
  p.map_intern op (fun x => x) (fun x => x)

/-- Rust `ParseError::map_token`. -/
def map_token (op : T → TT) (p : ParseError L T E) : ParseError L TT E :=
  p.map_intern (fun x => x) op (fun x => x)

/-- Rust `ParseError::map_error`. -/
def map_error (op : E → EE) (p : ParseError L T E) : ParseError L T EE :=
  p.map_intern (fun x => x) (fun x => x) op

/-- The `Error::description` impl for `ParseError`: the Rust impl returns the constant
string literal `"parse error"` without inspecting the variant. -/
def description (_ : ParseError L T E) : String := "parse error"

/-- Rust `ParseError::clone` as produced by `derive(Clone)`: each variant is
rebuilt field by field (spans component-wise, `expected` element-wise). -/
def clone : ParseError L T E → ParseError L T E
  | .InvalidToken location => .InvalidToken location
  | .UnrecognizedEOF location expected =>
      .UnrecognizedEOF location (expected.map (fun s => s))
  | .UnrecognizedToken (s, t, e) expected =>
      .UnrecognizedToken (s, t, e) (expected.map (fun s => s))
  | .ExtraToken (s, t, e) => .ExtraToken (s, t, e)
  | .User error => .User error

end ParseError

/-- Rust `ErrorRecovery::clone` as produced by `derive(Clone)`: the inner error is
cloned and `dropped_tokens` is cloned element-wise. -/
def ErrorRecovery.clone {L T E : Type} (r : ErrorRecovery L T E) :
    ErrorRecovery L T E :=
  ⟨r.error.clone, r.dropped_tokens.map (fun (s, t, e) => (s, t, e))⟩

/-- The five variant tags of `ParseError`. -/
inductive VariantTag where
  | invalidToken
  | unrecognizedEOF
  | unrecognizedToken
  | extraToken
  | user
deriving DecidableEq

namespace ParseError

variable {L T E : Type}

/-- The variant tag of a `ParseError` value. -/
def tag : ParseError L T E → VariantTag
  | .InvalidToken _ => .invalidToken
  | .UnrecognizedEOF _ _ => .unrecognizedEOF
  | .UnrecognizedToken _ _ => .unrecognizedToken
  | .ExtraToken _ => .extraToken
  | .User _ => .user

/-- All `L`-typed fields of a `ParseError`, in declaration order: the single
location of `InvalidToken`/`UnrecognizedEOF`, both ends of the span of
`UnrecognizedToken`/`ExtraToken`, nothing for `User`. -/
def locations : ParseError L T E → List L
  | .InvalidToken location => [location]
  | .UnrecognizedEOF location _ => [location]
  | .UnrecognizedToken (s, _, e) _ => [s, e]
  | .ExtraToken (s, _, e) => [s, e]
  | .User _ => []

/-- The `T`-typed field of a `ParseError`, when the variant carries one. -/
def tokenVal : ParseError L T E → Option T
  | .UnrecognizedToken (_, t, _) _ => some t
  | .ExtraToken (_, t, _) => some t
  | _ => none

/-- The `E`-typed field of a `ParseError`, when the variant carries one. -/
def errorVal : ParseError L T E → Option E
  | .User error => some error
  | _ => none

/-- The `expected` list of a `ParseError` (empty for variants without one). -/
def expectedList : ParseError L T E → List String
  | .UnrecognizedEOF _ expected => expected
  | .UnrecognizedToken _ expected => expected
  | _ => []

end ParseError

/-- The helper `fmt_expected` from `lalrpop-util/src/lib.rs`: nothing for an empty list;
otherwise a newline (the `writeln!(f, "")`), then for each index `i` the
separator chosen by `match i { 0 => "Expected one of", _ if i < len - 1 =>
",", _ => " or" }`, a space (from the `"{} {}"` format string), and the
item. -/
def fmt_expected (expected : List String) : String :=
  if expected.isEmpty then ""
  else
    "\n" ++ String.join (expected.enum.map (fun (i, e) =>
      let sep :=
        if i = 0 then "Expected one of"
        else if i < expected.length - 1 then ","
        else " or"
      sep ++ " " ++ e))

/-- The `Display` impl for `ParseError`, with the payload types' `Display`
given by `dL`, `dT`, `dE`. -/
def ParseError.display {L T E : Type} (dL : L → String) (dT : T → String)
    (dE : E → String) : ParseError L T E → String
  | .User error => dE error
  | .InvalidToken location => "Invalid token at " ++ dL location
  | .UnrecognizedEOF location expected =>
      "Unrecognized EOF found at " ++ dL location ++ fmt_expected expected
  | .UnrecognizedToken (s, t, e) expected =>
      "Unrecognized token `" ++ dT t ++ "` found at " ++ dL s ++ ":" ++ dL e
        ++ fmt_expected expected
  | .ExtraToken (s, t, e) =>
      "Extra token " ++ dT t ++ " found at " ++ dL s ++ ":" ++ dL e

/-- Helper: cloning a `ParseError` returns a structurally equal value. -/
theorem ParseError.clone_eq {L T E : Type} (p : ParseError L T E) :
    p.clone = p := by
  rcases p with l | ⟨l, exp⟩ | ⟨⟨s, t, e⟩, exp⟩ | ⟨s, t, e⟩ | err <;>
    simp [ParseError.clone]

/-- C1: rendering `UnrecognizedToken{token:(1,"t0",2), expected:["t1","t2","t3"]}`
over integer locations and textual tokens yields exactly
`"Unrecognized token t0 found at 1:2\nExpected one of t1, t2 or t3"` with the
token wrapped in backticks: first expected item preceded by
`"Expected one of "`, the middle one by `", "`, the last by `" or "`, and no
trailing punctuation. -/
theorem display_unrecognizedToken_concrete :
    ParseError.display (fun n : Int => toString n) (fun s : String => s)
      (fun s : String => s)
      (ParseError.UnrecognizedToken (1, "t0", 2) ["t1", "t2", "t3"])
    = "Unrecognized token `t0` found at 1:2\nExpected one of t1, t2 or t3" := by
  decide

/-- C2: for every `ParseError` and total functions `f`, `g`, `h`, the three
projections `map_location f`, `map_token g`, `map_error h` commute: all six
application orders produce the same value. -/
theorem map_projections_commute {L T E LL TT EE : Type}
    (p : ParseError L T E) (f : L → LL) (g : T → TT) (h : E → EE) :
    ((p.map_location f).map_token g).map_error h
      = ((p.map_location f).map_error h).map_token g
  ∧ ((p.map_location f).map_token g).map_error h
      = ((p.map_token g).map_location f).map_error h
  ∧ ((p.map_location f).map_token g).map_error h
      = ((p.map_token g).map_error h).map_location f
  ∧ ((p.map_location f).map_token g).map_error h
      = ((p.map_error h).map_location f).map_token g
  ∧ ((p.map_location f).map_token g).map_error h
      = ((p.map_error h).map_token g).map_location f := by
  rcases p with l | ⟨l, exp⟩ | ⟨⟨s, t, e⟩, exp⟩ | ⟨s, t, e⟩ | err <;>
    simp [ParseError.map_location, ParseError.map_token, ParseError.map_error,
      ParseError.map_intern]

/-- C3: each of `map_location`, `map_token`, `map_error` applied with the
identity function returns a value structurally equal to the original. -/
theorem map_identity {L T E : Type} (p : ParseError L T E) :
    p.map_location (fun x => x) = p
  ∧ p.map_token (fun x => x) = p
  ∧ p.map_error (fun x => x) = p := by
  rcases p with l | ⟨l, exp⟩ | ⟨⟨s, t, e⟩, exp⟩ | ⟨s, t, e⟩ | err <;>
    simp [ParseError.map_location, ParseError.map_token, ParseError.map_error,
      ParseError.map_intern]

/-- C4: the three projections are total functions (they are Lean `def`s,
defined on every input) and preserve the variant tag: the result of
`map_location`, `map_token`, or `map_error` always carries the same
`VariantTag` as the input. -/
theorem map_preserves_tag {L T E LL TT EE : Type}
    (p : ParseError L T E) (f : L → LL) (g : T → TT) (h : E → EE) :
    (p.map_location f).tag = p.tag
  ∧ (p.map_token g).tag = p.tag
  ∧ (p.map_error h).tag = p.tag := by
  rcases p with l | ⟨l, exp⟩ | ⟨⟨s, t, e⟩, exp⟩ | ⟨s, t, e⟩ | err <;>
    simp [ParseError.map_location, ParseError.map_token, ParseError.map_error,
      ParseError.map_intern, ParseError.tag]

/-- C5: frame conditions of the three projections. `map_location f` applies
`f` to every location field (both span ends included) and leaves the token,
the user error, and the `expected` list untouched; `map_token g` transforms
only the token field (`Option.map`, hence a no-op on variants without a
token, such as `InvalidToken`); `map_error h` transforms only the user-error
field. -/
theorem map_frame {L T E LL TT EE : Type}
    (p : ParseError L T E) (f : L → LL) (g : T → TT) (h : E → EE) :
    ((p.map_location f).locations = p.locations.map f
      ∧ (p.map_location f).tokenVal = p.tokenVal
      ∧ (p.map_location f).errorVal = p.errorVal
      ∧ (p.map_location f).expectedList = p.expectedList)
  ∧ ((p.map_token g).tokenVal = p.tokenVal.map g
      ∧ (p.map_token g).locations = p.locations
      ∧ (p.map_token g).errorVal = p.errorVal
      ∧ (p.map_token g).expectedList = p.expectedList)
  ∧ ((p.map_error h).errorVal = p.errorVal.map h
      ∧ (p.map_error h).locations = p.locations
      ∧ (p.map_error h).tokenVal = p.tokenVal
      ∧ (p.map_error h).expectedList = p.expectedList) := by
  rcases p with l | ⟨l, exp⟩ | ⟨⟨s, t, e⟩, exp⟩ | ⟨s, t, e⟩ | err <;>
    simp [ParseError.map_location, ParseError.map_token, ParseError.map_error,
      ParseError.map_intern, ParseError.locations, ParseError.tokenVal,
      ParseError.errorVal, ParseError.expectedList]

/-- C6: rendering `UnrecognizedEOF` with the single-element expected list
`["a"]` yields `"Unrecognized EOF found at " ++ dL l ++ "\nExpected one of a"`
for every location `l`: the single item takes the first-item branch, so no
`" or "` separator appears. -/
theorem display_unrecognizedEOF_single {L T E : Type}
    (dL : L → String) (dT : T → String) (dE : E → String) (l : L) :
    ParseError.display dL dT dE
      (ParseError.UnrecognizedEOF l ["a"] : ParseError L T E)
    = "Unrecognized EOF found at " ++ dL l ++ "\nExpected one of a" := by
  have hx : fmt_expected ["a"] = "\nExpected one of a" := by decide
  simp [ParseError.display, hx]

/-- C7: rendering `UnrecognizedEOF` with an empty expected list yields
`"Unrecognized EOF found at " ++ dL l` with no trailing newline and no
expected clause, for every location `l`: `fmt_expected` emits nothing on an
empty list. -/
theorem display_unrecognizedEOF_empty {L T E : Type}
    (dL : L → String) (dT : T → String) (dE : E → String) (l : L) :
    ParseError.display dL dT dE
      (ParseError.UnrecognizedEOF l [] : ParseError L T E)
    = "Unrecognized EOF found at " ++ dL l := by
  have hx : fmt_expected [] = "" := by decide
  simp [ParseError.display, hx]

/-- C8: rendering `User{error}` yields exactly the user error's own rendering
with no prefix or suffix, and rendering `ExtraToken{token:(s,t,e)}` yields
exactly `"Extra token " ++ dT t ++ " found at " ++ dL s ++ ":" ++ dL e` with
the token not wrapped in backticks. -/
theorem display_user_extraToken {L T E : Type}
    (dL : L → String) (dT : T → String) (dE : E → String)
    (err : E) (s : L) (t : T) (e : L) :
    ParseError.display dL dT dE (ParseError.User err : ParseError L T E) = dE err
  ∧ ParseError.display dL dT dE
      (ParseError.ExtraToken (s, t, e) : ParseError L T E)
    = "Extra token " ++ dT t ++ " found at " ++ dL s ++ ":" ++ dL e :=
  ⟨rfl, rfl⟩

/-- C9: cloning an `ErrorRecovery` yields a value structurally equal to the
original; in particular the clone's `dropped_tokens` list is the very same
list (same length, order, elements).  With decidable equality on the payload
types, structural equality on `ErrorRecovery` is total and decides `true` on
the clone. -/
theorem errorRecovery_clone_eq {L T E : Type}
    [DecidableEq L] [DecidableEq T] [DecidableEq E]
    (r : ErrorRecovery L T E) :
    r.clone = r
  ∧ r.clone.dropped_tokens = r.dropped_tokens
  ∧ r.clone.dropped_tokens.length = r.dropped_tokens.length
  ∧ decide (r.clone = r) = true := by
  have hd : r.clone.dropped_tokens = r.dropped_tokens := by
    simp [ErrorRecovery.clone]
  have hc : r.clone = r := by
    rcases r with ⟨err, toks⟩
    simp [ErrorRecovery.clone, ParseError.clone_eq]
  exact ⟨hc, hd, by rw [hd], by simp [hc]⟩

/-- C10: the standard-error-trait `description` method returns the constant
string `"parse error"` for every `ParseError` value, regardless of variant. -/
theorem description_constant {L T E : Type} (p : ParseError L T E) :
    p.description = "parse error" := rfl

end LalrpopUtil
